import Mathlib

/-!
Shallow embedding of the AIDE ADK conversation-routing and readiness engine
(`agent-server/agents/orchestrator.py`, `agent-server/storage/local_storage.py`,
`config/settings.py`).  Python strings are modelled as Lean `String` over their
character lists; the helpers below reproduce the exact Python primitives the
code uses (`in` substring test, `str.lower` on ASCII, `str.strip`,
`str.split` on a newline, negative-index slices).  Dictionaries are modelled
as insertion-ordered association lists, matching CPython dict iteration order.
The external LLM agent executor is a collaborator (spec section 6) and is
modelled as an explicit input to the facade.  Wall-clock timestamp and uuid
fields are environment effects and are omitted from the embedded records.
-/

set_option maxRecDepth 8000

namespace AIDE

/-! ## Python string primitives -/

/-- ASCII case folding of one character, as CPython `str.lower` acts on ASCII
text (all strings handled by this program are ASCII). -/
def pyLowerChar (c : Char) : Char :=
  if 'A' ≤ c ∧ c ≤ 'Z' then Char.ofNat (c.toNat + 32) else c

/-- Python `s.lower()` on ASCII text. -/
def pyLower (s : String) : String :=
  (s.toList.map pyLowerChar).asString

/-- The ASCII whitespace characters removed by Python `str.strip()`:
space, tab, newline, carriage return, vertical tab, form feed. -/
def isPySpace (c : Char) : Bool :=
  c == ' ' || c == '\t' || c == '\n' || c == '\r' ||
  c == Char.ofNat 11 || c == Char.ofNat 12

/-- Python `s.strip()`. -/
def pyStrip (s : String) : String :=
  (((s.toList.dropWhile isPySpace).reverse.dropWhile isPySpace).reverse).asString

/-- Python `len(s)` (a character count). -/
def pyLen (s : String) : Nat := s.toList.length

/-- Does `needle` occur at the head of `hay`? -/
def matchHere : List Char → List Char → Bool
  | [], _ => true
  | _ :: _, [] => false
  | c :: cs, d :: ds => c == d && matchHere cs ds

/-- Does `needle` occur anywhere in `hay`? -/
def containsSub : List Char → List Char → Bool
  | [], needle => matchHere needle []
  | h :: t, needle => matchHere needle (h :: t) || containsSub t needle

/-- Python `needle in hay` substring membership. -/
def pyIn (needle hay : String) : Bool := containsSub hay.toList needle.toList

/-- Python `s.startswith(p)`. -/
def pyStartsWith (s p : String) : Bool := matchHere p.toList s.toList

/-- Python `s.endswith(c)` for a single character. -/
def pyEndsWith (s : String) (c : Char) : Bool := s.toList.getLast? == some c

/-- Python `s[:n]`. -/
def pyTake (s : String) (n : Nat) : String := (s.toList.take n).asString

/-- Python list slice `l[-n:]` for a nonnegative `n`.  For `n = 0` the
slice `l[-0:]` is `l[0:]`, the whole list. -/
def pySliceLast {α : Type} (l : List α) (n : Nat) : List α :=
  if n = 0 then l else l.drop (l.length - n)

/-- Helper for Python `s.split` on a newline. -/
def splitLinesAux : List Char → List Char → List String
  | [], acc => [acc.reverse.asString]
  | c :: rest, acc =>
    if c == '\n' then acc.reverse.asString :: splitLinesAux rest []
    else splitLinesAux rest (c :: acc)

/-- Python `s.split` on a newline separator. -/
def pySplitNL (s : String) : List String := splitLinesAux s.toList []

/-! ## Python dicts as insertion-ordered association lists -/

/-- Python `d.get(k)` / `k in d` lookup. -/
def dictGet {α : Type} (d : List (String × α)) (k : String) : Option α :=
  (d.find? (fun p => p.1 == k)).map (fun p => p.2)

/-- Python `d[k] = v`: replace in place if the key exists, else append. -/
def dictSet {α : Type} (d : List (String × α)) (k : String) (v : α) :
    List (String × α) :=
  match d with
  | [] => [(k, v)]
  | p :: rest => if p.1 == k then (k, v) :: rest else p :: dictSet rest k v

/-! ## `config/settings.py` -/

/-- The fixed conversational pipeline `AGENT_CHAIN` from `config/settings.py`. -/
def AGENT_CHAIN : List String :=
  ["requirements_evolver", "ux_architect", "ui_designer", "frontend_engineer",
   "data_architect", "api_designer", "devops"]

/-- A heterogeneous configuration value, as stored in `SESSION_CONFIG`. -/
inductive ConfigVal where
  | num (n : Nat)
  | flag (b : Bool)
  | str (s : String)
deriving Repr, DecidableEq

/-- The `SESSION_CONFIG` dict from `config/settings.py`, with exactly the keys
the source file defines.  Note that no `compaction_strategy` key is present. -/
def SESSION_CONFIG : List (String × ConfigVal) :=
  [("timeout", .num 3600), ("max_sessions", .num 100),
   ("cleanup_interval", .num 300), ("memory_limit", .num 10),
   ("max_messages", .num 50), ("session_cleanup", .flag true)]

/-- Python `SESSION_CONFIG[key]`: a missing key raises `KeyError`. -/
def configLookup (key : String) : Except String ConfigVal :=
  match dictGet SESSION_CONFIG key with
  | some v => .ok v
  | none => .error ("KeyError: " ++ key)

/-! ## `storage/local_storage.py` — `ADKSession` -/

/-- One entry of a turn log: role, text, originating agent (absent for user
turns).  The uuid `message_id` and wall-clock `timestamp` fields are
environment effects and are omitted. -/
structure Turn where
  role : String
  message : String
  agent : Option String
deriving Repr, DecidableEq

/-- `ADKSession._compact_context`: when the log exceeds
`SESSION_CONFIG["max_messages"]` the code reads
`SESSION_CONFIG["compaction_strategy"]`; a missing key raises `KeyError`,
modelled as `Except.error`.  With the strategy equal to `"recent"` the log is
cut to the most recent `max_messages // 2` entries. -/
def _compact_context (messages : List Turn) : Except String (List Turn) := do
  let maxVal ← configLookup "max_messages"
  match maxVal with
  | .num max_messages =>
    if messages.length > max_messages then do
      let strategy ← configLookup "compaction_strategy"
      if strategy == .str "recent" then
        let keep_count := max_messages / 2
        pure (pySliceLast messages keep_count)
      else
        pure messages
    else
      pure messages
  | _ => .error "TypeError: comparison with a non-integer max_messages"

/-- `ADKSession.add_message`: the entry is appended first and compaction runs
afterwards, so when compaction raises, the state left behind is the appended
(uncompacted) log and the error propagates to the caller — the pair returned
here is (resulting log, raised error if any). -/
def add_message (messages : List Turn) (role msg : String) (agent : Option String) :
    List Turn × Option String :=
  let appended := messages ++ [{ role := role, message := msg, agent := agent }]
  match _compact_context appended with
  | .ok compacted => (compacted, none)
  | .error e => (appended, some e)

/-- `ADKSession.get_recent_context`: the Python body is `self.messages[-limit:]`. -/
def get_recent_context (messages : List Turn) (limit : Nat) : List Turn :=
  pySliceLast messages limit

/-! ## `agents/orchestrator.py` — data model -/

/-- A value of the `technical_specs` dict built by `_extract_technical_specs`:
booleans, strings, or the extracted colour list. -/
inductive SpecVal where
  | flag (b : Bool)
  | str (s : String)
  | strs (l : List String)
deriving Repr, DecidableEq

/-- The requirements dict written by `_extract_requirements_enhanced` for one
agent.  The wall-clock `timestamp` field is an environment effect and is
omitted. -/
structure RequirementRecord where
  full_response : String
  user_message : String
  summary : String
  technical_specs : List (String × SpecVal)
  agent : String
  has_substance : Bool
deriving Repr, DecidableEq

/-- The project state read and written by the orchestrator: name, the active
agent, the per-agent requirements dict and the persistent turn log. -/
structure ProjectData where
  name : String
  active_agent : String
  requirements : List (String × RequirementRecord)
  messages : List Turn
deriving Repr, DecidableEq

/-! ## `agents/orchestrator.py` — keyword tables -/

/-- The `approval_keywords` list of `_determine_next_agent`. -/
def approval_keywords : List String :=
  ["approved", "perfect", "looks good", "proceed", "move forward",
   "next phase", "next agent", "switch to", "yes", "sure", "go ahead",
   "continue", "next", "ready", "sounds good"]

/-- The `approval_progression` dict of `_determine_next_agent`. -/
def approval_progression : List (String × String) :=
  [("requirements_evolver", "ux_architect"),
   ("ux_architect", "ui_designer"),
   ("ui_designer", "frontend_engineer"),
   ("frontend_engineer", "data_architect"),
   ("data_architect", "api_designer"),
   ("api_designer", "devops")]

/-- The `agent_keywords` dict of `_determine_next_agent`, in the insertion
order of the source (note `data_architect` and `api_designer` are declared
before `frontend_engineer`, unlike in `AGENT_CHAIN`). -/
def agent_keywords : List (String × List String) :=
  [("requirements_evolver",
    ["requirements", "what i want", "project goal", "objective"]),
   ("ux_architect",
    ["navigate", "user flow", "ux", "experience", "usability", "interface",
     "flow", "navigation", "user journey"]),
   ("ui_designer",
    ["change design", "change color", "ui design", "ui", "design", "color",
     "style", "theme", "look", "appearance"]),
   ("data_architect",
    ["database", "data", "store", "save", "storage", "persist", "db", "sql",
     "information"]),
   ("api_designer",
    ["api", "backend", "server", "endpoint", "rest", "json", "backend",
     "server-side"]),
   ("frontend_engineer",
    ["javascript", "react", "vue", "frontend", "client", "browser",
     "technical", "implementation", "code", "functionality"]),
   ("devops",
    ["deploy", "host", "server", "domain", "production", "cloud", "hosting",
     "deployment", "server"])]

/-- The `technical_indicators` dict of `_has_substantial_content`. -/
def technical_indicators : List (String × List String) :=
  [("frontend_engineer",
    ["javascript", "framework", "component", "interaction", "functionality",
     "implementation"]),
   ("data_architect",
    ["database", "storage", "data", "schema", "table", "model"]),
   ("api_designer",
    ["endpoint", "api", "rest", "backend", "route", "request", "response"]),
   ("devops",
    ["deployment", "hosting", "server", "cloud", "domain", "ssl",
     "environment"]),
   ("code_generator",
    ["import", "def ", "class ", "function", "const ", "let ", "app.route"])]

/-! ## `agents/orchestrator.py` — routing -/

/-- The keyword stage of `_determine_next_agent`: the first entry of
`agent_keywords`, in dict insertion order, one of whose keywords occurs in
the lowercased message. -/
def keywordSwitch (message_lower : String) : Option String :=
  (agent_keywords.find? (fun p => p.2.any (fun kw => pyIn kw message_lower))).map
    (fun p => p.1)

/-- The progress-based stage of `_determine_next_agent`: advance down
`AGENT_CHAIN` when the current agent has a substantial requirement record or
two or more logged turns, and is not last in the chain. -/
def progressBased (current_agent : String) (project_data : ProjectData) : String :=
  if AGENT_CHAIN.contains current_agent then
    let current_index := AGENT_CHAIN.indexOf current_agent
    let current_has_contributed :=
      match dictGet project_data.requirements current_agent with
      | some r => r.has_substance
      | none => false
    let message_count :=
      (project_data.messages.filter (fun m => m.agent == some current_agent)).length
    if (current_has_contributed || decide (message_count ≥ 2)) &&
        decide (current_index < AGENT_CHAIN.length - 1) then
      (AGENT_CHAIN[current_index + 1]?).getD current_agent
    else current_agent
  else current_agent

/-- `_determine_next_agent`: approval keywords first (advancing via
`approval_progression` when the current agent is a key of it), then the
`agent_keywords` scan, then the progress-based advance, else stay. -/
def _determine_next_agent (current_agent user_message : String)
    (project_data : ProjectData) : String :=
  let message_lower := pyLower user_message
  let approvalStep :=
    if approval_keywords.any (fun kw => pyIn kw message_lower) then
      dictGet approval_progression current_agent
    else none
  match approvalStep with
  | some next_agent => next_agent
  | none =>
    match keywordSwitch message_lower with
    | some agent_name => agent_name
    | none => progressBased current_agent project_data

/-! ## `agents/orchestrator.py` — substance classification -/

/-- `_has_substantial_content`: reject below 25 stripped characters; early
agents accept length ≥ 30 that is not a short pure clarifying question;
technical agents require length ≥ 40 plus a domain indicator. -/
def _has_substantial_content (response : String) (agent_name : String) : Bool :=
  if response == "" || decide (pyLen (pyStrip response) < 25) then false
  else
    let response_clean := pyStrip response
    if ["requirements_evolver", "ux_architect", "ui_designer"].contains agent_name then
      let is_pure_question :=
        pyEndsWith response_clean '?' &&
        decide (pyLen response_clean < 80) &&
        (["what would", "can you", "please provide", "could you tell me"].any
          (fun phrase => pyIn phrase (pyLower response_clean)))
      decide (pyLen response_clean ≥ 30) && !is_pure_question
    else
      let agent_indicators := (dictGet technical_indicators agent_name).getD []
      let has_technical_content :=
        agent_indicators.any (fun ind => pyIn ind (pyLower response_clean))
      decide (pyLen response_clean ≥ 40) && has_technical_content

/-! ## `agents/orchestrator.py` — requirement extraction -/

/-- Python `"\n".join(lines)`. -/
def joinNL (lines : List String) : String := String.intercalate "\n" lines

/-- The line-accumulation loop of `_create_intelligent_summary`: keep stripped
lines that are nonempty, do not open a comment marker, and exceed 10
characters, stopping once the joined text passes 150 characters. -/
def meaningfulAccum : List String → List String → List String
  | [], acc => acc
  | line :: rest, acc =>
    let stripped := pyStrip line
    if stripped != "" && !(pyStartsWith stripped "#") &&
        !(pyStartsWith stripped "//") && !(pyStartsWith stripped "/*") &&
        decide (pyLen stripped > 10) then
      let acc2 := acc ++ [stripped]
      if decide (pyLen (joinNL acc2) > 150) then acc2
      else meaningfulAccum rest acc2
    else meaningfulAccum rest acc

/-- `_create_intelligent_summary`. -/
def _create_intelligent_summary (response : String) : String :=
  if decide (pyLen response ≤ 200) then response
  else
    let lines := pySplitNL response
    let meaningful_lines := meaningfulAccum lines []
    let summary := joinNL meaningful_lines
    if decide (pyLen summary > 200) then pyTake summary 197 ++ "..."
    else summary

/-- One character of the class `[a-fA-F0-9]` in the colour pattern of
`_extract_technical_specs`. -/
def colorHexChar (c : Char) : Bool :=
  ('a' ≤ c && c ≤ 'f') || ('A' ≤ c && c ≤ 'F') || ('0' ≤ c && c ≤ '9')

/-- Python `re.findall` for the pattern matching a hash sign followed by six
or, failing that, three `[a-fA-F0-9]` characters, returning the captured hex
groups; scanning resumes after each match, the six-character branch tried
first, as in the regex alternation. -/
def findColors : List Char → List String
  | [] => []
  | c :: rest =>
    if c == '#' then
      let six := rest.take 6
      if six.length == 6 && six.all colorHexChar then
        six.asString :: findColors (rest.drop 6)
      else
        let three := rest.take 3
        if three.length == 3 && three.all colorHexChar then
          three.asString :: findColors (rest.drop 3)
        else findColors rest
    else findColors rest
termination_by l => l.length
decreasing_by
  all_goals simp [List.length_drop]
  all_goals omega

/-- `_extract_technical_specs`: keyword-derived common specs, plus for the
ui_designer the first three extracted hex colours of the raw response. -/
def _extract_technical_specs (response : String) (agent_name : String) :
    List (String × SpecVal) :=
  let response_lower := pyLower response
  let specs : List (String × SpecVal) := []
  let specs :=
    if pyIn "responsive" response_lower || pyIn "mobile" response_lower then
      dictSet specs "responsive" (.flag true)
    else specs
  let specs :=
    if pyIn "modern" response_lower then dictSet specs "style" (.str "modern")
    else specs
  let specs :=
    if pyIn "minimal" response_lower || pyIn "clean" response_lower then
      dictSet specs "style" (.str "minimal")
    else specs
  let specs :=
    if pyIn "dark" response_lower && pyIn "theme" response_lower then
      dictSet specs "theme" (.str "dark")
    else specs
  let specs :=
    if pyIn "light" response_lower && pyIn "theme" response_lower then
      dictSet specs "theme" (.str "light")
    else specs
  if agent_name == "ui_designer" then
    let colors := findColors response.toList
    if colors != [] then
      dictSet specs "colors" (.strs ((colors.take 3).map (fun c => "#" ++ c)))
    else specs
  else specs

/-- `_extract_requirements_enhanced` builds the requirements dict stored for
the agent (wall-clock timestamp omitted); the record is written
unconditionally, whatever the reply was. -/
def _extract_requirements_enhanced (agent_name response user_message : String) :
    RequirementRecord :=
  { full_response := response
    user_message := user_message
    summary := _create_intelligent_summary response
    technical_specs := _extract_technical_specs response agent_name
    agent := agent_name
    has_substance := _has_substantial_content response agent_name }

/-! ## `agents/orchestrator.py` — readiness gate -/

/-- The substantial-contribution count of `can_generate_code` and
`_has_minimal_requirements` (records written by this program are nonempty
dicts, hence always truthy). -/
def substantial_agents_count (requirements : List (String × RequirementRecord)) :
    Nat :=
  (requirements.filter (fun p => p.2.has_substance)).length

/-- The `has_requirements_evolver` test of `_has_minimal_requirements`. -/
def has_requirements_evolver (requirements : List (String × RequirementRecord)) :
    Bool :=
  match dictGet requirements "requirements_evolver" with
  | some r => r.has_substance
  | none => false

/-- `_has_minimal_requirements`: the disjunctive eligibility rule. -/
def _has_minimal_requirements (project_data : ProjectData) : Bool :=
  let requirements := project_data.requirements
  decide (substantial_agents_count requirements ≥ 3) ||
  (has_requirements_evolver requirements &&
    decide (substantial_agents_count requirements ≥ 2)) ||
  decide (substantial_agents_count requirements ≥ 4)

/-- `_get_generation_status_message`. -/
def _get_generation_status_message (can_generate : Bool)
    (substantial_agents : Nat) : String :=
  if can_generate then
    "Ready to generate! Collected substantial requirements from " ++
      toString substantial_agents ++ " agents."
  else if substantial_agents == 0 then
    "Please describe your project requirements first."
  else if substantial_agents == 1 then
    "Getting there! A bit more detail about design or functionality would help."
  else if substantial_agents == 2 then
    "Making progress! A few more details about your preferences would be great."
  else
    "Almost ready! We have " ++ toString substantial_agents ++
      " agents with good requirements."

/-- The status dict returned by `can_generate_code`. -/
structure GenStatus where
  can_generate : Bool
  substantial_agents : Nat
  agent_contributions : List String
  has_minimal_requirements : Bool
  message : String
deriving Repr, DecidableEq

/-- `can_generate_code` (the project is passed in place of the storage read). -/
def can_generate_code (project_data : ProjectData) : GenStatus :=
  let requirements := project_data.requirements
  let substantial_agents := substantial_agents_count requirements
  let agent_contributions :=
    (requirements.filter (fun p => p.2.has_substance)).map (fun p => p.1)
  let has_minimal := _has_minimal_requirements project_data
  { can_generate := has_minimal
    substantial_agents := substantial_agents
    agent_contributions := agent_contributions
    has_minimal_requirements := has_minimal
    message := _get_generation_status_message has_minimal substantial_agents }

/-! ## `agents/orchestrator.py` — facade -/

/-- Outcome of the external ADK agent executor call
(`ADKManager.run_agent_with_instructions`): the executor either returns a
dict with a `success` flag and a `response` string, or the invocation raises
(spec section 6 collaborator, supplied as an input to the facade). -/
inductive ExecOutcome where
  | result (success : Bool) (response : String)
  | raised (err : String)
deriving Repr, DecidableEq

/-- `_run_single_agent`: a successful executor result is returned verbatim;
a failed result or a raised exception is replaced by a user-facing apology
string that embeds the error text. -/
def _run_single_agent (outcome : ExecOutcome) : String :=
  match outcome with
  | .result true response => response
  | .result false error_msg =>
    "I encountered an issue while processing your request. Please try again. Error: "
      ++ error_msg
  | .raised e =>
    "I encountered an issue. Please try again. Error: " ++ e

/-- The per-turn result dict of `route_message`. -/
structure RouteResult where
  message : String
  agent : String
  should_generate : Bool
deriving Repr, DecidableEq

/-- `route_message`: pick the next agent, persist it when changed, run the
single agent, then unconditionally store the extracted requirement record for
the (possibly new) active agent.  Returns the result dict and the updated
project state. -/
def route_message (project_data : ProjectData) (user_message : String)
    (outcome : ExecOutcome) : RouteResult × ProjectData :=
  let current_agent := project_data.active_agent
  let next_agent := _determine_next_agent current_agent user_message project_data
  let project1 :=
    if next_agent != current_agent then
      { project_data with active_agent := next_agent }
    else project_data
  let agent_response := _run_single_agent outcome
  let req := _extract_requirements_enhanced next_agent agent_response user_message
  let project2 :=
    { project1 with requirements := dictSet project1.requirements next_agent req }
  ({ message := agent_response, agent := next_agent, should_generate := false },
   project2)

/-! ## Concrete scenario data -/

/-- A fresh project as created by `LocalStorage.create_project`: empty
requirements map, empty log, active agent at the head of the chain. -/
def projEmpty : ProjectData :=
  { name := "demo", active_agent := "requirements_evolver",
    requirements := [], messages := [] }

/-- A substantial requirement record owned by `a`, for concrete scenarios. -/
def substRecord (a : String) : RequirementRecord :=
  { full_response := "resp", user_message := "um", summary := "s",
    technical_specs := [], agent := a, has_substance := true }

/-- A project whose requirements map holds exactly two substantial records,
owned by requirements_evolver and ux_architect. -/
def projTwoSubstantial : ProjectData :=
  { name := "demo", active_agent := "requirements_evolver",
    requirements :=
      [("requirements_evolver", substRecord "requirements_evolver"),
       ("ux_architect", substRecord "ux_architect")],
    messages := [] }

/-- A session turn log already holding the configured maximum of 50 turns. -/
def fiftyTurns : List Turn :=
  List.replicate 50 { role := "user", message := "earlier turn", agent := none }

/-- An older turn, for window-ordering scenarios. -/
def turnFirst : Turn := { role := "user", message := "the first turn", agent := none }

/-- A newer turn, for window-ordering scenarios. -/
def turnSecond : Turn :=
  { role := "assistant", message := "the second turn", agent := some "ux_architect" }

/-- Modelled from the spec: the keyword stage as the spec words it for C5 —
the per-agent keyword sets checked in the Agent Catalog declared pipeline
order (`AGENT_CHAIN`) — for comparison with the source keyword stage
`keywordSwitch`, which scans the keyword table in its own insertion order. -/
def keywordSwitchChainOrder (message_lower : String) : Option String :=
  AGENT_CHAIN.find? (fun a =>
    ((dictGet agent_keywords a).getD []).any (fun kw => pyIn kw message_lower))

/-! ## General lemmas about the embedded primitives -/

theorem matchHere_refl (l : List Char) : matchHere l l = true := by
  induction l with
  | nil => rfl
  | cons c cs ih => simp [matchHere, ih]

theorem containsSub_self (l : List Char) : containsSub l l = true := by
  cases l with
  | nil => rfl
  | cons c cs => simp [containsSub, matchHere_refl]

theorem containsSub_append_self (a b : List Char) :
    containsSub (a ++ b) b = true := by
  induction a with
  | nil => simpa using containsSub_self b
  | cons x xs ih => simp [containsSub, ih]

/-- A string always occurs, in the Python sense, in any extension of itself
to the left. -/
theorem pyIn_append_self (a b : String) : pyIn b (a ++ b) = true := by
  unfold pyIn
  have hl : (a ++ b).toList = a.toList ++ b.toList := by
    simp [String.toList, String.data_append]
  rw [hl]
  exact containsSub_append_self _ _

/-- Reading back the key just assigned by `dictSet` yields the new value. -/
theorem dictGet_dictSet_self {α : Type} (d : List (String × α)) (k : String)
    (v : α) : dictGet (dictSet d k v) k = some v := by
  induction d with
  | nil => simp [dictGet, dictSet, List.find?]
  | cons p rest ih =>
    by_cases h : p.1 == k
    · simp [dictGet, dictSet, h, List.find?]
    · simp only [dictSet, h, if_false, Bool.false_eq_true]
      simpa [dictGet, List.find?, h] using ih

/-- Every key of the approval-progression table is a chain member. -/
theorem chain_contains_of_progression {a x : String}
    (h : dictGet approval_progression a = some x) :
    AGENT_CHAIN.contains a = true := by
  unfold dictGet at h
  cases hf : approval_progression.find? (fun p => p.1 == a) with
  | none => rw [hf] at h; simp at h
  | some p =>
    have hmem : p ∈ approval_progression := List.mem_of_find?_eq_some hf
    have hpred := List.find?_some hf
    have ha : p.1 = a := eq_of_beq hpred
    subst ha
    fin_cases hmem <;> decide

/-- With a nonempty reply of at least 25 stripped characters and an agent
outside the early-agent list, the classifier reduces to the technical test:
length at least 40 and a domain indicator in the lowercased stripped reply. -/
theorem has_substantial_content_technical (response agent_name : String)
    (hearly : (["requirements_evolver", "ux_architect",
      "ui_designer"].contains agent_name) = false)
    (h0 : (response == "" || decide (pyLen (pyStrip response) < 25)) = false) :
    _has_substantial_content response agent_name =
      (decide (pyLen (pyStrip response) ≥ 40) &&
        ((dictGet technical_indicators agent_name).getD []).any
          (fun ind => pyIn ind (pyLower (pyStrip response)))) := by
  simp only [_has_substantial_content]
  rw [h0, hearly]
  simp

/-- Approval stage unfolding: an approval keyword in the lowercased message
together with a progression entry for the current agent decides routing. -/
theorem determine_next_agent_of_approval {current_agent next_agent : String}
    (user_message : String) (project_data : ProjectData)
    (hany : approval_keywords.any
      (fun kw => pyIn kw (pyLower user_message)) = true)
    (hprog : dictGet approval_progression current_agent = some next_agent) :
    _determine_next_agent current_agent user_message project_data = next_agent := by
  simp [_determine_next_agent, hany, hprog]

/-! ## Claim C1 -/

/-- C1 counterexample: with exactly the two substantial records of the claim
(requirements_evolver and ux_architect) the readiness check returns
`can_generate = true`, not `false` as claimed — the second disjunct of
`_has_minimal_requirements` (evolver substance with a count of at least 2)
fires. -/
theorem c1_counterexample :
    (can_generate_code projTwoSubstantial).can_generate = true := by decide

/-- C1 (amended): for a project whose requirements map contains exactly two
RequirementRecords with has_substance = true, one owned by
requirements_evolver and one owned by ux_architect, the readiness check
`can_generate_code` returns `can_generate = true`. -/
theorem c1_two_substantial_with_evolver (project_data : ProjectData)
    (hre : has_requirements_evolver project_data.requirements = true)
    (hcount : substantial_agents_count project_data.requirements = 2) :
    (can_generate_code project_data).can_generate = true := by
  have h : _has_minimal_requirements project_data = true := by
    simp only [_has_minimal_requirements]
    rw [hre, hcount]
    decide
  simpa [can_generate_code] using h

theorem c1_witness :
    has_requirements_evolver projTwoSubstantial.requirements = true ∧
    substantial_agents_count projTwoSubstantial.requirements = 2 ∧
    (can_generate_code projTwoSubstantial).can_generate = true :=
  ⟨by decide, by decide,
   c1_two_substantial_with_evolver projTwoSubstantial (by decide) (by decide)⟩

/-! ## Claim C2 -/

/-- C2 counterexample: after a turn whose executor call failed (success =
false, error text "boom"), a RequirementRecord IS present in the requirements
map for the active agent, while the claim asserts none is written for that
turn. -/
theorem c2_counterexample :
    (dictGet
      (route_message projEmpty "hello"
        (ExecOutcome.result false "boom")).2.requirements
      "requirements_evolver").isSome = true := by decide

/-- C2 (amended): for every turn in which the executor fails (the result has
success = false, or invoking it raises), route_message returns a user-facing
apology string that embeds the error text — and a RequirementRecord built
from that apology reply IS written to the requirements map for the turn. -/
theorem c2_executor_failure_apology (project_data : ProjectData)
    (user_message err : String) (outcome : ExecOutcome)
    (hfail : outcome = .result false err ∨ outcome = .raised err) :
    pyIn err (route_message project_data user_message outcome).1.message = true ∧
    dictGet (route_message project_data user_message outcome).2.requirements
        (route_message project_data user_message outcome).1.agent =
      some (_extract_requirements_enhanced
              (route_message project_data user_message outcome).1.agent
              (route_message project_data user_message outcome).1.message
              user_message) := by
  rcases hfail with rfl | rfl <;>
    exact ⟨by simp [route_message, _run_single_agent, pyIn_append_self],
           by simp [route_message, dictGet_dictSet_self]⟩

theorem c2_witness :
    pyIn "boom"
      (route_message projEmpty "hello"
        (ExecOutcome.result false "boom")).1.message = true ∧
    dictGet (route_message projEmpty "hello"
          (ExecOutcome.result false "boom")).2.requirements
        (route_message projEmpty "hello"
          (ExecOutcome.result false "boom")).1.agent =
      some (_extract_requirements_enhanced
              (route_message projEmpty "hello"
                (ExecOutcome.result false "boom")).1.agent
              (route_message projEmpty "hello"
                (ExecOutcome.result false "boom")).1.message
              "hello") :=
  c2_executor_failure_apology projEmpty "hello" "boom" _ (Or.inl rfl)

/-! ## Claim C3 -/

/-- C3 (code bug): appending a 51st turn to a full log leaves the log at 51
entries — strictly above the configured max_messages of 50 — and raises
KeyError for "compaction_strategy", because SESSION_CONFIG defines no such
key; the truncation to the most recent 25 turns that the claim (and the code
comment) describe never happens, and the append fails. -/
theorem c3_compaction_raises_keyerror :
    (add_message fiftyTurns "user" "one more turn" none).2 =
      some "KeyError: compaction_strategy" ∧
    (add_message fiftyTurns "user" "one more turn" none).1.length = 51 ∧
    dictGet SESSION_CONFIG "max_messages" = some (ConfigVal.num 50) ∧
    dictGet SESSION_CONFIG "compaction_strategy" = none := by decide

/-! ## Claim C4 -/

/-- C4: the readiness gate returns can_generate = true exactly when the
number of RequirementRecords with has_substance = true is at least 3, or the
requirements_evolver record has substance and that count is at least 2, or
that count is at least 4. -/
theorem c4_readiness_gate_iff (project_data : ProjectData) :
    (can_generate_code project_data).can_generate = true ↔
      (3 ≤ substantial_agents_count project_data.requirements ∨
       (has_requirements_evolver project_data.requirements = true ∧
        2 ≤ substantial_agents_count project_data.requirements) ∨
       4 ≤ substantial_agents_count project_data.requirements) := by
  simp only [can_generate_code, _has_minimal_requirements, Bool.or_eq_true,
    Bool.and_eq_true, decide_eq_true_eq, ge_iff_le]
  tauto

/-! ## Claim C5 -/

/-- C5 counterexample: "javascript storage" contains no approval keyword and
carries topic keywords of two agents (frontend_engineer via "javascript",
data_architect via "storage").  The chain order the claim asserts would pick
frontend_engineer (earlier in AGENT_CHAIN), but the code scans the keyword
table in its own insertion order and picks data_architect. -/
theorem c5_counterexample :
    _determine_next_agent "requirements_evolver" "javascript storage" projEmpty =
      "data_architect" ∧
    keywordSwitchChainOrder (pyLower "javascript storage") =
      some "frontend_engineer" ∧
    ("data_architect" : String) ≠ "frontend_engineer" := by decide

/-- C5 (amended): when the message contains no approval keyword and matches
some entry of the keyword table, routing returns the first matching agent in
the table's own insertion order (requirements_evolver, ux_architect,
ui_designer, data_architect, api_designer, frontend_engineer, devops) — so
the agent declared earlier in that table wins ties, and the selected agent
may coincide with the current agent. -/
theorem c5_keyword_routing_table_order (current_agent user_message : String)
    (project_data : ProjectData) (entry : String × List String)
    (hnoapp : approval_keywords.any
      (fun kw => pyIn kw (pyLower user_message)) = false)
    (hfind : agent_keywords.find?
        (fun p => p.2.any (fun kw => pyIn kw (pyLower user_message))) =
      some entry) :
    _determine_next_agent current_agent user_message project_data = entry.1 := by
  simp [_determine_next_agent, hnoapp, keywordSwitch, hfind]

theorem c5_witness :
    _determine_next_agent "ux_architect" "need json endpoints" projEmpty =
      "api_designer" :=
  c5_keyword_routing_table_order "ux_architect" "need json endpoints" projEmpty
    ("api_designer",
     ["api", "backend", "server", "endpoint", "rest", "json", "backend",
      "server-side"])
    (by decide) (by decide)

/-! ## Claim C6 -/

/-- C6: at every non-last chain position, a message containing an approval
keyword advances via the approval-progression table, independently of the
project state (substance, turn counts, or any topic keywords the message also
contains): routing yields the table successor for every project_data, so the
same (currentAgent, approvalMessage) pair always yields the same next agent
(the witness instantiates ui_designer with "looks good, proceed", yielding
frontend_engineer). -/
theorem c6_approval_progression (current_agent user_message : String)
    (hpos : current_agent ∈ AGENT_CHAIN.take (AGENT_CHAIN.length - 1))
    (hkw : ∃ kw ∈ approval_keywords, pyIn kw (pyLower user_message) = true) :
    ∃ next_agent,
      dictGet approval_progression current_agent = some next_agent ∧
      ∀ project_data : ProjectData,
        _determine_next_agent current_agent user_message project_data =
          next_agent := by
  have hany : approval_keywords.any
      (fun kw => pyIn kw (pyLower user_message)) = true := by
    rcases hkw with ⟨kw, hmem, hin⟩
    exact List.any_eq_true.mpr ⟨kw, hmem, hin⟩
  have hlist : AGENT_CHAIN.take (AGENT_CHAIN.length - 1) =
      ["requirements_evolver", "ux_architect", "ui_designer",
       "frontend_engineer", "data_architect", "api_designer"] := by decide
  rw [hlist] at hpos
  simp only [List.mem_cons, List.not_mem_nil, or_false] at hpos
  rcases hpos with rfl | rfl | rfl | rfl | rfl | rfl
  · exact ⟨"ux_architect", by decide,
      fun pd => determine_next_agent_of_approval _ pd hany (by decide)⟩
  · exact ⟨"ui_designer", by decide,
      fun pd => determine_next_agent_of_approval _ pd hany (by decide)⟩
  · exact ⟨"frontend_engineer", by decide,
      fun pd => determine_next_agent_of_approval _ pd hany (by decide)⟩
  · exact ⟨"data_architect", by decide,
      fun pd => determine_next_agent_of_approval _ pd hany (by decide)⟩
  · exact ⟨"api_designer", by decide,
      fun pd => determine_next_agent_of_approval _ pd hany (by decide)⟩
  · exact ⟨"devops", by decide,
      fun pd => determine_next_agent_of_approval _ pd hany (by decide)⟩

theorem c6_witness :
    _determine_next_agent "ui_designer" "looks good, proceed" projEmpty =
      "frontend_engineer" := by
  obtain ⟨next_agent, hsome, hall⟩ :=
    c6_approval_progression "ui_designer" "looks good, proceed" (by decide)
      ⟨"looks good", by decide, by decide⟩
  have h2 : dictGet approval_progression "ui_designer" =
      some "frontend_engineer" := by decide
  rw [hsome] at h2
  injection h2 with h3
  exact (hall projEmpty).trans h3

/-! ## Claim C7 -/

/-- C7 counterexample: with limit 0 the slice messages[-0:] is the whole log,
so the window holds 2 turns where the claim allows at most 0; and with limit
2 the returned window lists the older turn first — most-recent-last, not
most-recent-first as claimed. -/
theorem c7_counterexample :
    (get_recent_context [turnFirst, turnSecond] 0).length = 2 ∧
    get_recent_context [turnFirst, turnSecond] 2 = [turnFirst, turnSecond] ∧
    turnFirst ≠ turnSecond := by decide

/-- C7 (amended): for every limit n with n ≥ 1 and every turn log,
get_recent_context returns the last min(n, length) turns — a suffix of the
log kept in chronological order (most-recent-last) of length at most n; for
n = 0 the entire log is returned instead. -/
theorem c7_recent_context_suffix (messages : List Turn) (limit : Nat)
    (hpos : 1 ≤ limit) :
    (get_recent_context messages limit).length ≤ limit ∧
    get_recent_context messages limit =
      messages.drop (messages.length - limit) ∧
    (get_recent_context messages limit).IsSuffix messages := by
  have hne : ¬ limit = 0 := by omega
  unfold get_recent_context pySliceLast
  rw [if_neg hne]
  refine ⟨?_, rfl, ?_⟩
  · rw [List.length_drop]; omega
  · exact List.drop_suffix _ _

theorem c7_witness :
    (get_recent_context [turnFirst, turnSecond] 1).length ≤ 1 ∧
    get_recent_context [turnFirst, turnSecond] 1 =
      [turnFirst, turnSecond].drop ([turnFirst, turnSecond].length - 1) ∧
    (get_recent_context [turnFirst, turnSecond] 1).IsSuffix
      [turnFirst, turnSecond] :=
  c7_recent_context_suffix [turnFirst, turnSecond] 1 (by decide)

/-! ## Claim C8 -/

/-- C8: for every technical agent (frontend_engineer, data_architect,
api_designer, devops, code_generator), substance classification is monotone
in trimmed length around the 40-character threshold whenever a domain
indicator occurs in the lowercased trimmed reply: below 40 characters the
reply is classified as no-substance, at or above 40 it is classified as
having substance. -/
theorem c8_technical_length_threshold (agent_name response : String)
    (hagent : agent_name ∈
      ["frontend_engineer", "data_architect", "api_designer", "devops",
       "code_generator"])
    (hkw : ((dictGet technical_indicators agent_name).getD []).any
        (fun ind => pyIn ind (pyLower (pyStrip response))) = true) :
    (pyLen (pyStrip response) < 40 →
      _has_substantial_content response agent_name = false) ∧
    (40 ≤ pyLen (pyStrip response) →
      _has_substantial_content response agent_name = true) := by
  have hearly : (["requirements_evolver", "ux_architect",
      "ui_designer"].contains agent_name) = false := by
    fin_cases hagent <;> decide
  constructor
  · intro hlt
    by_cases h0 : (response == "" ||
        decide (pyLen (pyStrip response) < 25)) = true
    · simp only [_has_substantial_content]
      rw [h0]
      simp
    · rw [Bool.not_eq_true] at h0
      rw [has_substantial_content_technical response agent_name hearly h0, hkw]
      simp only [Bool.and_true, decide_eq_false_iff_not, ge_iff_le]
      omega
  · intro hge
    have hne : (response == "") = false := by
      cases hb : response == "" with
      | true =>
        exfalso
        have hr : response = "" := eq_of_beq hb
        rw [hr] at hge
        have hz : pyLen (pyStrip "") = 0 := by decide
        omega
      | false => rfl
    have h0 : (response == "" ||
        decide (pyLen (pyStrip response) < 25)) = false := by
      rw [hne]
      simp only [Bool.false_or, decide_eq_false_iff_not]
      omega
    rw [has_substantial_content_technical response agent_name hearly h0, hkw]
    simp only [Bool.and_true, decide_eq_true_eq, ge_iff_le]
    omega

theorem c8_witness :
    _has_substantial_content "tiny database" "data_architect" = false ∧
    _has_substantial_content
      "We will use a relational database with an orders table for persistence."
      "data_architect" = true :=
  ⟨(c8_technical_length_threshold "data_architect" "tiny database"
      (by decide) (by decide)).1 (by decide),
   (c8_technical_length_threshold "data_architect"
      "We will use a relational database with an orders table for persistence."
      (by decide) (by decide)).2 (by decide)⟩

/-! ## Claim C9 -/

/-- C9 counterexample: for an agent identifier absent from the catalog and a
message carrying a topic keyword, routing does NOT return the current agent
unchanged — it switches to the keyword agent (here data_architect), so the
claimed conservative degradation of routing fails as stated. -/
theorem c9_counterexample :
    AGENT_CHAIN.contains "mystery_agent" = false ∧
    _determine_next_agent "mystery_agent" "we need a database" projEmpty =
      "data_architect" ∧
    ("data_architect" : String) ≠ "mystery_agent" := by decide

/-- C9 (amended): classification and routing are total functions of this
embedding (no exception path exists); classification degrades conservatively
— empty text is classified no-substance for every agent identifier, and every
text is classified no-substance for an identifier absent from both the
early-agent list and the technical-indicator table; routing with an
identifier absent from the agent chain returns the current agent unchanged
whenever the message matches no topic keyword (a topic-keyword match can
still switch away, as the counterexample shows). -/
theorem c9_conservative_degradation :
    (∀ agent_name : String, _has_substantial_content "" agent_name = false) ∧
    (∀ response agent_name : String,
      (["requirements_evolver", "ux_architect",
        "ui_designer"].contains agent_name) = false →
      dictGet technical_indicators agent_name = none →
      _has_substantial_content response agent_name = false) ∧
    (∀ (current_agent user_message : String) (project_data : ProjectData),
      AGENT_CHAIN.contains current_agent = false →
      keywordSwitch (pyLower user_message) = none →
      _determine_next_agent current_agent user_message project_data =
        current_agent) := by
  refine ⟨?_, ?_, ?_⟩
  · intro agent_name
    simp [_has_substantial_content]
  · intro response agent_name hearly hnone
    by_cases h0 : (response == "" ||
        decide (pyLen (pyStrip response) < 25)) = true
    · simp only [_has_substantial_content]
      rw [h0]
      simp
    · rw [Bool.not_eq_true] at h0
      rw [has_substantial_content_technical response agent_name hearly h0, hnone]
      simp
  · intro current_agent user_message project_data hchain hkwnone
    have hprog : dictGet approval_progression current_agent = none := by
      cases hd : dictGet approval_progression current_agent with
      | none => rfl
      | some x =>
        have hc := chain_contains_of_progression hd
        rw [hchain] at hc
        simp at hc
    simp only [_determine_next_agent]
    rw [hprog, ite_self, hkwnone]
    simp only [progressBased]
    rw [hchain]
    simp

theorem c9_witness :
    _has_substantial_content "" "data_architect" = false ∧
    _has_substantial_content
      "a long enough reply that mentions no recognized domain evidence"
      "quality_agent" = false ∧
    _determine_next_agent "quality_agent" "hello there" projEmpty =
      "quality_agent" := by
  obtain ⟨p1, p2, p3⟩ := c9_conservative_degradation
  exact ⟨p1 "data_architect",
         p2 _ "quality_agent" (by decide) (by decide),
         p3 "quality_agent" "hello there" projEmpty (by decide) (by decide)⟩

/-! ## Claim C10 -/

/-- C10: the result dict of route_message has should_generate = false for
every project, message, and executor outcome — the field is the literal
constant false in the source, regardless of requirement counts or readiness
eligibility. -/
theorem c10_should_generate_always_false (project_data : ProjectData)
    (user_message : String) (outcome : ExecOutcome) :
    (route_message project_data user_message outcome).1.should_generate =
      false := rfl

end AIDE
